import Mathlib

/-!
Verification of the KeyBridge BLE client (`client/hid_bridge.py`).

This file gives a shallow embedding of the parts of the client that the
specification talks about: the chunked text-transfer engine (`send_text`),
the raw HID key channel (`send_hid_key`), MTU-based chunk-size negotiation
(`scan_and_connect`), the capture-mode key classification callbacks
(`on_press` / `on_release`), one iteration of the capture consumer loop
(`capture_mode`), and the filename sanitizers of the remote save commands
(`save_file_windows`, `save_binary_windows`, `save_file_linux`,
`save_binary_linux`).

Python machine-level conventions used throughout the embedding:
* byte strings are `List Nat` (each element `< 256`; the claims never need
  the bound itself);
* `x & ~y` on non-negative Python ints is `py_and_not x y` (defined below);
* `x | y` is `x ||| y`, `x & y` is `x &&& y`;
* a Python `dict.get(k, 0)` lookup is a total function returning `0` for
  missing keys;
* `time.sleep` / `asyncio.sleep` and GATT writes are modelled as an emitted
  trace of `TxEvent`s, in program order;
* Python string predicates (`str.isalnum`, `str.lower`) are modelled on
  the ASCII range, which covers every concrete input in the claims.
-/

/-- HID modifier bit `MOD_LCTRL = 0x01` from `hid_bridge.py`. -/
def MOD_LCTRL : Nat := 0x01

/-- HID modifier bit `MOD_LSHIFT = 0x02` from `hid_bridge.py`. -/
def MOD_LSHIFT : Nat := 0x02

/-- HID modifier bit `MOD_LALT = 0x04` from `hid_bridge.py`. -/
def MOD_LALT : Nat := 0x04

/-- HID modifier bit `MOD_LGUI = 0x08` from `hid_bridge.py`. -/
def MOD_LGUI : Nat := 0x08

/-- HID modifier bit `MOD_RCTRL = 0x10` from `hid_bridge.py`. -/
def MOD_RCTRL : Nat := 0x10

/-- HID modifier bit `MOD_RSHIFT = 0x20` from `hid_bridge.py`. -/
def MOD_RSHIFT : Nat := 0x20

/-- HID modifier bit `MOD_RALT = 0x40` from `hid_bridge.py`. -/
def MOD_RALT : Nat := 0x40

/-- HID modifier bit `MOD_RGUI = 0x80` from `hid_bridge.py`. -/
def MOD_RGUI : Nat := 0x80

/-- Observable transport effects of a send operation: a GATT characteristic
write carrying a byte payload, or an `asyncio.sleep` pause (in whole
milliseconds, matching the constants 0.005 / 0.002 / 0.05 of the source). -/
inductive TxEvent
  | write (chunk : List Nat)
  | sleep_ms (ms : Nat)
deriving DecidableEq

/-- Relevant state of a `KeyBridgeClient` instance: `client_present` models
`self.client is not None`, `is_connected` models `self.client.is_connected`,
and the two queues model `self.text_queue` / `self.key_queue` (front of the
list = front of the FIFO queue). -/
structure ClientState where
  client_present : Bool
  is_connected : Bool
  chunk_size : Nat
  text_queue : List String
  key_queue : List (Nat × Nat)
deriving DecidableEq

/-- Chunk list produced by the loop
`for i in range(0, len(encoded), chunk_size): chunk = encoded[i:i+chunk_size]`
in `KeyBridgeClient.send_text`.  `range(0, n, cs)` has `(n + cs - 1) / cs`
iterations for `cs ≥ 1`, and the Python slice `encoded[i:i+cs]` is
`(encoded.drop i).take cs`. -/
def send_chunks (encoded : List Nat) (cs : Nat) : List (List Nat) :=
  (List.range ((encoded.length + cs - 1) / cs)).map
    (fun k => (encoded.drop (k * cs)).take cs)

/-- Pacing inserted after each chunk write in `send_text`:
`if len(encoded) > 1000: await asyncio.sleep(0.005)
 elif len(encoded) > 500: await asyncio.sleep(0.002)`. -/
def chunk_pacing (total : Nat) : List TxEvent :=
  if 1000 < total then [TxEvent.sleep_ms 5]
  else if 500 < total then [TxEvent.sleep_ms 2]
  else []

/-- Event trace of the non-slow branch of `send_text`: each loop iteration
writes one chunk and then runs the pacing conditional. -/
def chunked_trace (encoded : List Nat) (cs : Nat) : List TxEvent :=
  (send_chunks encoded cs).flatMap
    (fun c => TxEvent.write c :: chunk_pacing encoded.length)

/-- Event trace of the slow-mode branch of `send_text`: one byte per write,
each followed by `asyncio.sleep(0.05)`. -/
def slow_trace (encoded : List Nat) : List TxEvent :=
  encoded.flatMap (fun b => [TxEvent.write [b], TxEvent.sleep_ms 50])

/-- Embedding of `KeyBridgeClient.send_text`.  The UTF-8 encoding step
`text.encode('utf-8')` is abstracted: `encoded` ranges over arbitrary byte
payloads.  The guard `if not self.client or not self.client.is_connected`
returns without any transport effect; the source never assigns any
attribute of `self` in this method, so the state passes through unchanged
in every branch. -/
def send_text (st : ClientState) (encoded : List Nat) (slow_mode : Bool) :
    ClientState × List TxEvent :=
  if st.client_present = false ∨ st.is_connected = false then (st, [])
  else if slow_mode then (st, slow_trace encoded)
  else (st, chunked_trace encoded st.chunk_size)

/-- Embedding of `KeyBridgeClient.send_hid_key`: same connection guard,
then a single two-byte write `bytes([modifiers, keycode])`. -/
def send_hid_key (st : ClientState) (modifiers keycode : Nat) :
    ClientState × List TxEvent :=
  if st.client_present = false ∨ st.is_connected = false then (st, [])
  else (st, [TxEvent.write [modifiers, keycode]])

/-- Chunk size computed in `scan_and_connect` after MTU negotiation:
`self.chunk_size = min(mtu - 3, 500)`.  Python ints are unbounded and
signed, hence `Int`. -/
def negotiated_chunk_size (mtu : Int) : Int := min (mtu - 3) 500

/-- Predicate for `TxEvent.sleep_ms` events. -/
def is_sleep : TxEvent → Bool
  | TxEvent.sleep_ms _ => true
  | _ => false

/-- Predicate for `TxEvent.write` events. -/
def is_write_event : TxEvent → Bool
  | TxEvent.write _ => true
  | _ => false

/-- Number of sleep (pacing) events in a trace. -/
def count_sleeps (tr : List TxEvent) : Nat := (tr.filter is_sleep).length

/-- Number of chunk-write events in a trace. -/
def count_writes (tr : List TxEvent) : Nat := (tr.filter is_write_event).length

/-- Entries of the `MAC_KEY_TO_HID` dict of `hid_bridge.py`, as a total
function returning `0` for keys absent from the dict (the source always
reads it through `MAC_KEY_TO_HID.get(char_lower, 0)`).  The apostrophe,
backtick and backslash keys are written with `\xNN` escapes. -/
def MAC_KEY_TO_HID : String → Nat
  | "a" => 0x04 | "b" => 0x05 | "c" => 0x06 | "d" => 0x07 | "e" => 0x08
  | "f" => 0x09 | "g" => 0x0A | "h" => 0x0B | "i" => 0x0C | "j" => 0x0D
  | "k" => 0x0E | "l" => 0x0F | "m" => 0x10 | "n" => 0x11 | "o" => 0x12
  | "p" => 0x13 | "q" => 0x14 | "r" => 0x15 | "s" => 0x16 | "t" => 0x17
  | "u" => 0x18 | "v" => 0x19 | "w" => 0x1A | "x" => 0x1B | "y" => 0x1C
  | "z" => 0x1D
  | "1" => 0x1E | "2" => 0x1F | "3" => 0x20 | "4" => 0x21 | "5" => 0x22
  | "6" => 0x23 | "7" => 0x24 | "8" => 0x25 | "9" => 0x26 | "0" => 0x27
  | "Return" => 0x28 | "Escape" => 0x29 | "BackSpace" => 0x2A | "Tab" => 0x2B
  | "space" => 0x2C | " " => 0x2C
  | "enter" => 0x28 | "backspace" => 0x2A | "tab" => 0x2B
  | "-" => 0x2D | "=" => 0x2E | "[" => 0x2F | "]" => 0x30
  | "\x5c" => 0x31 | ";" => 0x33 | "\x27" => 0x34 | "\x60" => 0x35
  | "," => 0x36 | "." => 0x37 | "/" => 0x38
  | "F1" => 0x3A | "F2" => 0x3B | "F3" => 0x3C | "F4" => 0x3D | "F5" => 0x3E
  | "F6" => 0x3F | "F7" => 0x40 | "F8" => 0x41 | "F9" => 0x42 | "F10" => 0x43
  | "F11" => 0x44 | "F12" => 0x45
  | "Insert" => 0x49 | "Home" => 0x4A | "Page_Up" => 0x4B | "Delete" => 0x4C
  | "End" => 0x4D | "Page_Down" => 0x4E | "Right" => 0x4F | "Left" => 0x50
  | "Down" => 0x51 | "Up" => 0x52
  | _ => 0

/-- Entries of the `SHIFT_CHARS` dict of `hid_bridge.py`, mapping a shifted
character (as a one-character string) to its base key; `none` models
`char not in SHIFT_CHARS`.  The brace, double-quote, tilde-to-backtick and
pipe-to-backslash entries are written with `\xNN` escapes. -/
def SHIFT_CHARS : String → Option String
  | "!" => some "1" | "@" => some "2" | "#" => some "3" | "$" => some "4"
  | "%" => some "5" | "^" => some "6" | "&" => some "7" | "*" => some "8"
  | "(" => some "9" | ")" => some "0"
  | "_" => some "-" | "+" => some "="
  | "\x7b" => some "[" | "\x7d" => some "]" | "|" => some "\x5c"
  | ":" => some ";" | "\x22" => some "\x27" | "~" => some "\x60"
  | "<" => some "," | ">" => some "." | "?" => some "/"
  | "A" => some "a" | "B" => some "b" | "C" => some "c" | "D" => some "d"
  | "E" => some "e" | "F" => some "f" | "G" => some "g" | "H" => some "h"
  | "I" => some "i" | "J" => some "j" | "K" => some "k" | "L" => some "l"
  | "M" => some "m" | "N" => some "n" | "O" => some "o" | "P" => some "p"
  | "Q" => some "q" | "R" => some "r" | "S" => some "s" | "T" => some "t"
  | "U" => some "u" | "V" => some "v" | "W" => some "w" | "X" => some "x"
  | "Y" => some "y" | "Z" => some "z"
  | _ => none

/-- Incoming pynput key objects as classified by `on_press` / `on_release`:
the eleven modifier members the callbacks test for, the fourteen special
`keyboard.Key` members handled explicitly, `char c` for a `KeyCode` whose
`.char` attribute is a (truthy) character, and `named s` for any other
`keyboard.Key` member, which has a `.name` attribute but no `.char`. -/
inductive PKey
  | ctrl_l | ctrl_r
  | shift_l | shift_g | shift_r
  | alt_l | alt_g | alt_r
  | cmd_l | cmd_g | cmd_r
  | space | enter | backspace | tab | esc | delete
  | up | down | left | right
  | home | end_key | page_up | page_down
  | char (c : Char)
  | named (s : String)
deriving DecidableEq

/-- The `key.char` attribute: present exactly on `KeyCode` objects
(`hasattr(key, 'char') and key.char`), as a one-character string. -/
def key_char : PKey → Option String
  | PKey.char c => some (String.singleton c)
  | _ => none

/-- The `key.name` attribute of the remaining `keyboard.Key` members
(`hasattr(key, 'name')`). -/
def key_name : PKey → Option String
  | PKey.named s => some s
  | _ => none

/-- Keycode assigned by the explicit special-key `elif` chain of `on_press`
(lines handling space / enter / backspace / ... / page_down); `0` when the
chain falls through. -/
def special_keycode : PKey → Nat
  | PKey.space => 0x2C
  | PKey.enter => 0x28
  | PKey.backspace => 0x2A
  | PKey.tab => 0x2B
  | PKey.esc => 0x29
  | PKey.delete => 0x4C
  | PKey.up => 0x52
  | PKey.down => 0x51
  | PKey.left => 0x50
  | PKey.right => 0x4F
  | PKey.home => 0x4A
  | PKey.end_key => 0x4D
  | PKey.page_up => 0x4B
  | PKey.page_down => 0x4E
  | _ => 0

/-- Python `m & ~mask` on a non-negative int `m`: clears the bits of
`mask` in `m`.  Written as `m - (m &&& mask)`, which is the same number
(the cleared bits are subtracted out) and reduces in the kernel. -/
def py_and_not (m mask : Nat) : Nat := m - (m &&& mask)

/-- ASCII model of Python `str.lower` on a single character. -/
def py_lower (c : Char) : Char :=
  if 'A' ≤ c ∧ c ≤ 'Z' then Char.ofNat (c.toNat + 32) else c

/-- Model of `char.lower() if len(char) == 1 else char` from `on_press`. -/
def lower_if_single (s : String) : String :=
  if s.length = 1 then String.mk (s.data.map py_lower) else s

/-- Effect of one `on_press` callback invocation: the new value of the
nonlocal `modifiers`, plus at most one `text_queue.put_nowait` and at most
one `key_queue.put_nowait`. -/
structure PressEffect where
  modifiers : Nat
  text_push : Option String
  key_push : Option (Nat × Nat)
deriving DecidableEq

/-- Embedding of the `on_press` closure of `KeyBridgeClient.capture_mode`.
`modifiers` is the nonlocal modifier mask on entry; `clipboard` is the
value returned by the `get_clipboard()` collaborator (`none` models a
`None` return).  Branches follow the source line by line: modifier-key
updates; `cmd_pressed` detection; the Cmd+V clipboard branch (pushes only a
truthy clipboard); the Cmd+C drop branch; the GUI-to-Ctrl remap of
`current_mods`; the special-key keycode chain; and the character branch,
which first reassigns `current_mods = modifiers` (discarding the remap),
applies `SHIFT_CHARS`, lowers single characters and looks up
`MAC_KEY_TO_HID`, enqueueing only a nonzero keycode. -/
def on_press (modifiers : Nat) (key : PKey) (clipboard : Option String) :
    PressEffect :=
  match key with
  | PKey.ctrl_l => ⟨modifiers ||| MOD_LCTRL, none, none⟩
  | PKey.ctrl_r => ⟨modifiers ||| MOD_LCTRL, none, none⟩
  | PKey.shift_l => ⟨modifiers ||| MOD_LSHIFT, none, none⟩
  | PKey.shift_g => ⟨modifiers ||| MOD_LSHIFT, none, none⟩
  | PKey.shift_r => ⟨modifiers ||| MOD_RSHIFT, none, none⟩
  | PKey.alt_l => ⟨modifiers ||| MOD_LALT, none, none⟩
  | PKey.alt_g => ⟨modifiers ||| MOD_LALT, none, none⟩
  | PKey.alt_r => ⟨modifiers ||| MOD_RALT, none, none⟩
  | PKey.cmd_l => ⟨modifiers ||| MOD_LGUI, none, none⟩
  | PKey.cmd_g => ⟨modifiers ||| MOD_LGUI, none, none⟩
  | PKey.cmd_r => ⟨modifiers ||| MOD_RGUI, none, none⟩
  | k =>
    let cmd_pressed : Bool := modifiers &&& (MOD_LGUI ||| MOD_RGUI) != 0
    if cmd_pressed && (key_char k == some "v") then
      match clipboard with
      | some t => if t = "" then ⟨modifiers, none, none⟩
                  else ⟨modifiers, some t, none⟩
      | none => ⟨modifiers, none, none⟩
    else if cmd_pressed && (key_char k == some "c") then
      ⟨modifiers, none, none⟩
    else
      let current_mods :=
        if cmd_pressed then
          py_and_not modifiers (MOD_LGUI ||| MOD_RGUI) ||| MOD_LCTRL
        else modifiers
      let keycode := special_keycode k
      if keycode ≠ 0 then ⟨modifiers, none, some (current_mods, keycode)⟩
      else
        match (match key_char k with
               | some s => some s
               | none => key_name k) with
        | none => ⟨modifiers, none, none⟩
        | some ch =>
          let base_mods := modifiers
          let shifted :=
            match SHIFT_CHARS ch with
            | some base => (base_mods ||| MOD_LSHIFT, base)
            | none => (base_mods, ch)
          let keycode2 := MAC_KEY_TO_HID (lower_if_single shifted.2)
          if keycode2 ≠ 0 then ⟨modifiers, none, some (shifted.1, keycode2)⟩
          else ⟨modifiers, none, none⟩

/-- Embedding of the `on_release` closure of `KeyBridgeClient.capture_mode`:
clears the corresponding modifier flag (`modifiers &= ~BIT`) and leaves the
mask unchanged for every non-modifier key. -/
def on_release (modifiers : Nat) (key : PKey) : Nat :=
  match key with
  | PKey.ctrl_l => py_and_not modifiers MOD_LCTRL
  | PKey.ctrl_r => py_and_not modifiers MOD_LCTRL
  | PKey.shift_l => py_and_not modifiers MOD_LSHIFT
  | PKey.shift_g => py_and_not modifiers MOD_LSHIFT
  | PKey.shift_r => py_and_not modifiers MOD_RSHIFT
  | PKey.alt_l => py_and_not modifiers MOD_LALT
  | PKey.alt_g => py_and_not modifiers MOD_LALT
  | PKey.alt_r => py_and_not modifiers MOD_RALT
  | PKey.cmd_l => py_and_not modifiers MOD_LGUI
  | PKey.cmd_g => py_and_not modifiers MOD_LGUI
  | PKey.cmd_r => py_and_not modifiers MOD_RGUI
  | _ => modifiers

/-- Exception classes relevant to the capture consumer loop.  `QueueEmpty`,
`TimeoutError` and `CancelledError` are the only classes the loop catches;
an exception raised by a transport write (`bleak` write failures and the
like) is modelled by `transfer_error`. -/
inductive PyExc
  | transfer_error
deriving DecidableEq

/-- Send performed by one iteration of the capture consumer loop. -/
inductive CaptureAction
  | sent_text (t : String)
  | sent_key (m k : Nat)
deriving DecidableEq

/-- Result of one iteration of the capture consumer loop: the loop reaches
the next iteration (`next`, possibly having sent something), breaks out of
the `while` (`stopped`, on `CancelledError`), or an uncaught exception
propagates out of the `while` into the `finally` block (`raised`). -/
inductive IterOutcome
  | next (st : ClientState) (act : Option CaptureAction)
  | stopped (st : ClientState)
  | raised (e : PyExc) (st : ClientState)
deriving DecidableEq

/-- One iteration of the consumer loop body of `KeyBridgeClient.capture_mode`,
for a state in which the `while` condition already held.  The translation of
the two `try` blocks:

* `self.text_queue.get_nowait()` raises `QueueEmpty` exactly when the text
  queue is empty; that is the only exception class caught around
  `send_text`, so a failing text send (`text_send_ok = false`) propagates;
  a successful one runs `continue`.
* `asyncio.wait_for(self.key_queue.get(), timeout=0.05)` yields the head of
  a non-empty key queue; on an empty queue it raises `TimeoutError`, which
  is caught and continues the loop; `cancelled = true` models a
  `CancelledError` from the wait, which breaks the loop.  Around
  `send_hid_key` only those two classes are caught, so a failing key send
  (`key_send_ok = false`) propagates. -/
def capture_iter (st : ClientState) (text_send_ok key_send_ok cancelled : Bool) :
    IterOutcome :=
  match st.text_queue with
  | t :: rest =>
    if text_send_ok then
      IterOutcome.next { st with text_queue := rest } (some (CaptureAction.sent_text t))
    else
      IterOutcome.raised PyExc.transfer_error { st with text_queue := rest }
  | [] =>
    if cancelled then IterOutcome.stopped st
    else
      match st.key_queue with
      | (m, k) :: krest =>
        if key_send_ok then
          IterOutcome.next { st with key_queue := krest } (some (CaptureAction.sent_key m k))
        else
          IterOutcome.raised PyExc.transfer_error { st with key_queue := krest }
      | [] => IterOutcome.next st none

/-- State carried out of an iteration outcome. -/
def outcome_state : IterOutcome → ClientState
  | IterOutcome.next st _ => st
  | IterOutcome.stopped st => st
  | IterOutcome.raised _ st => st

/-- Send action performed by an iteration, if any. -/
def outcome_action : IterOutcome → Option CaptureAction
  | IterOutcome.next _ act => act
  | _ => none

/-- Whether the outcome is a completed iteration (the loop continues). -/
def outcome_continues : IterOutcome → Bool
  | IterOutcome.next _ _ => true
  | _ => false

/-- Whether an iteration action is a raw key send. -/
def action_is_key : Option CaptureAction → Bool
  | some (CaptureAction.sent_key _ _) => true
  | _ => false

/-- ASCII model of Python `str.isalnum` (true on `[A-Za-z0-9]`; real Python
also accepts non-ASCII Unicode alphanumerics, which is why the filename
theorems below restrict inputs to ASCII). -/
def py_isalnum (c : Char) : Bool := c.isAlpha || c.isDigit

/-- Character filter of the Windows sanitizers:
`c.isalnum() or c in '.-_'`. -/
def windows_keep (c : Char) : Bool :=
  py_isalnum c || c = '.' || c = '-' || c = '_'

/-- Character filter of the Linux sanitizers:
`c.isalnum() or c in '.-_/'`. -/
def linux_keep (c : Char) : Bool :=
  py_isalnum c || c = '.' || c = '-' || c = '_' || c = '/'

/-- Windows-rule sanitization shared by `save_file_windows` and
`save_binary_windows`:
`safe_filename = "".join(c for c in filename if c.isalnum() or c in '.-_')`
followed by the empty-result fallback to `default_name`. -/
def sanitize_windows (filename default_name : String) : String :=
  let s := String.mk (filename.data.filter windows_keep)
  if s = "" then default_name else s

/-- Model of Python `s.startswith('/')`: the first character of `s` is a
slash.  Defined on the character list because `String.startsWith` does not
reduce in the kernel. -/
def starts_with_slash (s : String) : Bool :=
  match s.data with
  | c :: _ => c = '/'
  | [] => false

/-- Linux-rule sanitization shared by `save_file_linux` and
`save_binary_linux`:
`safe_filename = "".join(c for c in filename if c.isalnum() or c in '.-_/')`
followed by
`if not safe_filename or safe_filename.startswith('/')` fallback. -/
def sanitize_linux (filename default_name : String) : String :=
  let s := String.mk (filename.data.filter linux_keep)
  if s = "" ∨ starts_with_slash s = true then default_name else s

/-- Filename computed by `save_file_windows` (text default `untitled.txt`). -/
def save_file_windows_name (filename : String) : String :=
  sanitize_windows filename "untitled.txt"

/-- Filename computed by `save_binary_windows` (binary default `file.bin`). -/
def save_binary_windows_name (filename : String) : String :=
  sanitize_windows filename "file.bin"

/-- Filename computed by `save_file_linux` (text default `untitled.txt`). -/
def save_file_linux_name (filename : String) : String :=
  sanitize_linux filename "untitled.txt"

/-- Filename computed by `save_binary_linux` (binary default `file.bin`). -/
def save_binary_linux_name (filename : String) : String :=
  sanitize_linux filename "file.bin"

/-- Character class named by the specification for Windows filenames:
`[A-Za-z0-9.\x2d_]`.  Stated from the words of the spec, to be compared
with the code filter `windows_keep`. -/
def windows_class (c : Char) : Bool :=
  ('A' ≤ c && c ≤ 'Z') || ('a' ≤ c && c ≤ 'z') || ('0' ≤ c && c ≤ '9') ||
    c = '.' || c = '-' || c = '_'

/-! ## Chunking lemmas for the Text Transfer Engine -/

theorem send_chunks_nil (cs : Nat) (hcs : 1 ≤ cs) : send_chunks [] cs = [] := by
  unfold send_chunks
  rw [List.length_nil, Nat.zero_add, Nat.div_eq_of_lt (by omega)]
  rfl

theorem send_chunks_cons (cs : Nat) (hcs : 1 ≤ cs) (a : Nat) (l : List Nat) :
    send_chunks (a :: l) cs
      = (a :: l).take cs :: send_chunks ((a :: l).drop cs) cs := by
  have ht : ((a :: l).length + cs - 1) / cs
      = (((a :: l).drop cs).length + cs - 1) / cs + 1 := by
    rw [List.length_drop]
    set n := (a :: l).length with hdef
    have hn : 1 ≤ n := by simp [hdef]
    have h1 : n + cs - 1 = (n - 1) + cs := by omega
    have h2 : (n - 1) / cs = (n - cs + cs - 1) / cs := by
      rcases Nat.le_total cs n with h | h
      · have e : n - cs + cs - 1 = n - 1 := by omega
        rw [e]
      · have e : n - cs = 0 := by omega
        rw [e, Nat.zero_add, Nat.div_eq_of_lt (by omega),
          Nat.div_eq_of_lt (by omega)]
    rw [h1, Nat.add_div_right _ (show 0 < cs by omega), h2]
  unfold send_chunks
  rw [ht, List.range_succ_eq_map, List.map_cons, List.map_map]
  refine congrArg₂ List.cons ?_ ?_
  · simp
  · apply List.map_congr_left
    intro k _
    simp only [Function.comp]
    rw [List.drop_drop]
    congr 2
    rw [Nat.succ_mul, Nat.mul_comm]
    omega

theorem send_chunks_flatten (cs : Nat) (hcs : 1 ≤ cs) :
    ∀ (n : Nat) (l : List Nat), l.length ≤ n → (send_chunks l cs).flatten = l := by
  intro n
  induction n with
  | zero =>
    intro l hl
    have hnil : l = [] := List.length_eq_zero.mp (by omega)
    subst hnil
    rw [send_chunks_nil cs hcs]
    rfl
  | succ n ih =>
    intro l hl
    match l with
    | [] => rw [send_chunks_nil cs hcs]; rfl
    | a :: t =>
      rw [send_chunks_cons cs hcs a t, List.flatten_cons]
      rw [ih ((a :: t).drop cs)
        (by rw [List.length_drop]; simp only [List.length_cons] at hl ⊢; omega)]
      exact List.take_append_drop cs (a :: t)

theorem slice_length (l : List Nat) (cs k : Nat) (hcs : 1 ≤ cs)
    (hk : k + 1 < (l.length + cs - 1) / cs) :
    ((l.drop (k * cs)).take cs).length = cs := by
  have h2 : k + 2 ≤ (l.length + cs - 1) / cs := hk
  have h3 : (k + 2) * cs ≤ l.length + cs - 1 :=
    (Nat.le_div_iff_mul_le (by omega)).mp h2
  rw [Nat.add_mul] at h3
  rw [List.length_take, List.length_drop]
  omega

theorem filter_write_chunk_trace (L : List (List Nat)) (ps : List TxEvent)
    (hps : ps.filter is_write_event = []) :
    (L.flatMap fun c => TxEvent.write c :: ps).filter is_write_event
      = L.map TxEvent.write := by
  induction L with
  | nil => rfl
  | cons c L ih =>
    rw [List.flatMap_cons, List.filter_append]
    simp [List.filter_cons, is_write_event, hps, ih]

theorem filter_sleep_chunk_trace (L : List (List Nat)) (d : Nat) :
    (L.flatMap fun c => TxEvent.write c :: [TxEvent.sleep_ms d]).filter is_sleep
      = List.replicate L.length (TxEvent.sleep_ms d) := by
  induction L with
  | nil => rfl
  | cons c L ih =>
    rw [List.flatMap_cons, List.filter_append]
    simp [List.filter_cons, is_sleep, ih, List.replicate_succ]

theorem filter_sleep_chunk_trace_nil (L : List (List Nat)) :
    (L.flatMap fun c => (TxEvent.write c :: ([] : List TxEvent))).filter is_sleep
      = [] := by
  induction L with
  | nil => rfl
  | cons c L ih =>
    rw [List.flatMap_cons, List.filter_append]
    simp [List.filter_cons, is_sleep, ih]

/-- C2: for every byte payload and every chunk size at least 1, `send_text`
chunking produces the consecutive slices of the payload (each full slice of
length `chunk_size`, the last possibly shorter), the number of chunks is
`⌈|P| / chunkSize⌉ = (|P| + cs - 1) / cs`, concatenating the chunks in write
order reconstructs the payload exactly, and the writes emitted by a
connected `send_text` are exactly those chunks in order. -/
theorem c2_chunk_reassembly (P : List Nat) (cs k : Nat) (hcs : 1 ≤ cs) :
    (send_chunks P cs).length = (P.length + cs - 1) / cs
    ∧ (send_chunks P cs).flatten = P
    ∧ (k + 1 < (P.length + cs - 1) / cs → ((P.drop (k * cs)).take cs).length = cs)
    ∧ (send_text ⟨true, true, cs, [], []⟩ P false).2.filter is_write_event
        = (send_chunks P cs).map TxEvent.write := by
  refine ⟨by simp [send_chunks], send_chunks_flatten cs hcs P.length P le_rfl,
    fun hk => slice_length P cs k hcs hk, ?_⟩
  show (chunked_trace P cs).filter is_write_event = _
  unfold chunked_trace
  apply filter_write_chunk_trace
  unfold chunk_pacing
  split <;> [rfl; split <;> rfl]

/-- Witness for C2 at `P = [1, 2, 3]`, `cs = 2`: two chunks `[1, 2]`, `[3]`
whose concatenation is `P`. -/
theorem c2_chunk_reassembly_witness :
    (send_chunks [1, 2, 3] 2).flatten = [1, 2, 3] :=
  (c2_chunk_reassembly [1, 2, 3] 2 0 (by decide)).2.1

/-- C3: after a successful connect with negotiated MTU `M ≥ 4`, the
session's chunk size is `min (M - 3) 500`, which is at least 1, and equals
20 at the protocol default minimum `M = 23`. -/
theorem c3_chunk_size_negotiation (M : Int) (hM : 4 ≤ M) :
    negotiated_chunk_size M = min (M - 3) 500
    ∧ 1 ≤ negotiated_chunk_size M
    ∧ (M = 23 → negotiated_chunk_size M = 20) := by
  refine ⟨rfl, ?_, ?_⟩
  · unfold negotiated_chunk_size
    exact le_min (by omega) (by norm_num)
  · intro h
    subst h
    norm_num [negotiated_chunk_size]

/-- Witness for C3 at the protocol default minimum MTU `M = 23`. -/
theorem c3_chunk_size_negotiation_witness :
    negotiated_chunk_size 23 = 20 :=
  (c3_chunk_size_negotiation 23 (by norm_num)).2.2 rfl

/-- C10: calling `send_text` or `send_hid_key` with the session absent or
not connected performs no transport write and no sleep, raises nothing, and
returns with the client state unchanged. -/
theorem c10_disconnected_noop (st : ClientState) (encoded : List Nat)
    (slow_mode : Bool) (m k : Nat)
    (h : st.client_present = false ∨ st.is_connected = false) :
    send_text st encoded slow_mode = (st, [])
    ∧ send_hid_key st m k = (st, []) := by
  unfold send_text send_hid_key
  rw [if_pos h, if_pos h]
  exact ⟨rfl, rfl⟩

/-- Witness for C10: a present but disconnected session swallows a
`send_text` of `"Hi"` and a `send_hid_key` with no transport activity. -/
theorem c10_disconnected_noop_witness :
    send_text ⟨true, false, 20, [], []⟩ [72, 105] false
        = (⟨true, false, 20, [], []⟩, [])
    ∧ send_hid_key ⟨true, false, 20, [], []⟩ 1 4
        = (⟨true, false, 20, [], []⟩, []) :=
  c10_disconnected_noop ⟨true, false, 20, [], []⟩ [72, 105] false 1 4 (Or.inr rfl)

set_option maxRecDepth 100000 in
/-- C1 (amended): for a connected non-slow `send_text`, the pacing delay
value is chosen by total payload size (no sleep when the payload is at most
500 bytes, 2 ms sleeps when it is over 500 and at most 1000 bytes, 5 ms
sleeps when it is over 1000 bytes), but a sleep is inserted after every
chunk write, the final chunk included — one sleep per chunk, not one per
chunk boundary.  In particular sending 1500 'A' bytes with chunk size 500
produces exactly the trace write/sleep-5/write/sleep-5/write/sleep-5:
three chunk writes and three 5 ms delays. -/
theorem c1_pacing_after_every_chunk (st : ClientState) (encoded : List Nat)
    (hp : st.client_present = true) (hc : st.is_connected = true) :
    (encoded.length ≤ 500 → (send_text st encoded false).2.filter is_sleep = [])
    ∧ (500 < encoded.length → encoded.length ≤ 1000 →
        (send_text st encoded false).2.filter is_sleep
          = List.replicate ((encoded.length + st.chunk_size - 1) / st.chunk_size)
              (TxEvent.sleep_ms 2))
    ∧ (1000 < encoded.length →
        (send_text st encoded false).2.filter is_sleep
          = List.replicate ((encoded.length + st.chunk_size - 1) / st.chunk_size)
              (TxEvent.sleep_ms 5))
    ∧ (send_text st encoded false).2.filter is_write_event
        = (send_chunks encoded st.chunk_size).map TxEvent.write
    ∧ (send_text ⟨true, true, 500, [], []⟩ (List.replicate 1500 65) false).2
        = [TxEvent.write (List.replicate 500 65), TxEvent.sleep_ms 5,
           TxEvent.write (List.replicate 500 65), TxEvent.sleep_ms 5,
           TxEvent.write (List.replicate 500 65), TxEvent.sleep_ms 5] := by
  have hsend : (send_text st encoded false).2 = chunked_trace encoded st.chunk_size := by
    unfold send_text
    rw [if_neg (by simp [hp, hc])]
    rfl
  have hlen : (send_chunks encoded st.chunk_size).length
      = (encoded.length + st.chunk_size - 1) / st.chunk_size := by
    simp [send_chunks]
  refine ⟨?_, ?_, ?_, ?_, by decide⟩
  · intro h1
    rw [hsend]
    unfold chunked_trace chunk_pacing
    rw [if_neg (by omega), if_neg (by omega)]
    exact filter_sleep_chunk_trace_nil _
  · intro h1 h2
    rw [hsend]
    unfold chunked_trace chunk_pacing
    rw [if_neg (by omega), if_pos (by omega), ← hlen]
    exact filter_sleep_chunk_trace _ 2
  · intro h1
    rw [hsend]
    unfold chunked_trace chunk_pacing
    rw [if_pos (by omega), ← hlen]
    exact filter_sleep_chunk_trace _ 5
  · rw [hsend]
    unfold chunked_trace
    apply filter_write_chunk_trace
    unfold chunk_pacing
    split <;> [rfl; split <;> rfl]

set_option maxRecDepth 100000 in
/-- C1 is false as stated: the 1500-byte scenario produces three 5 ms
delays (one after every chunk write, the final one included), not exactly
two. -/
theorem c1_pacing_counterexample :
    count_writes (send_text ⟨true, true, 500, [], []⟩ (List.replicate 1500 65) false).2 = 3
    ∧ count_sleeps (send_text ⟨true, true, 500, [], []⟩ (List.replicate 1500 65) false).2 = 3
    ∧ ((count_sleeps (send_text ⟨true, true, 500, [], []⟩ (List.replicate 1500 65) false).2 == 2)
        = false) := by
  decide

/-- Witness for C1 (amended): a connected one-byte send paces nothing. -/
theorem c1_pacing_after_every_chunk_witness :
    (send_text ⟨true, true, 500, [], []⟩ [65] false).2.filter is_sleep = [] :=
  (c1_pacing_after_every_chunk ⟨true, true, 500, [], []⟩ [65] rfl rfl).1 (by decide)

/-- C8: whenever the text queue is non-empty at the start of a consumer
loop iteration, the iteration never performs a raw key send and leaves the
key queue untouched — regardless of how the entries arrived — and when the
text send succeeds the action performed is exactly the text-queue head. -/
theorem c8_text_priority (st : ClientState) (a b c : Bool) (t : String)
    (rest : List String) (h : st.text_queue = t :: rest) :
    (outcome_state (capture_iter st a b c)).key_queue = st.key_queue
    ∧ action_is_key (outcome_action (capture_iter st a b c)) = false
    ∧ (a = true →
        outcome_action (capture_iter st a b c) = some (CaptureAction.sent_text t)) := by
  unfold capture_iter
  rw [h]
  cases a <;> simp [outcome_state, outcome_action, action_is_key]

/-- Witness for C8: both queues simultaneously non-empty; the text entry is
dispatched and the key queue is untouched. -/
theorem c8_text_priority_witness :
    (outcome_state (capture_iter ⟨true, true, 20, ["clip"], [(0, 4)]⟩ true true false)).key_queue
        = (⟨true, true, 20, ["clip"], [(0, 4)]⟩ : ClientState).key_queue
    ∧ action_is_key (outcome_action (capture_iter ⟨true, true, 20, ["clip"], [(0, 4)]⟩ true true false)) = false
    ∧ (true = true →
        outcome_action (capture_iter ⟨true, true, 20, ["clip"], [(0, 4)]⟩ true true false)
          = some (CaptureAction.sent_text "clip")) :=
  c8_text_priority ⟨true, true, 20, ["clip"], [(0, 4)]⟩ true true false "clip" [] rfl

/-- C5 (amended): an exception raised while sending a dequeued event is
not caught at the event boundary — the only exception classes handled in
the consumer loop are `QueueEmpty`, `TimeoutError` and `CancelledError` —
so a failing `send_text` of a text-queue entry or a failing `send_hid_key`
of a key-queue entry propagates out of the `while` loop and terminates
capture mode (reaching the `finally` block that stops the listener). -/
theorem c5_send_failure_propagates (st : ClientState) (b c : Bool)
    (t : String) (rest : List String) (m k : Nat) (krest : List (Nat × Nat)) :
    (st.text_queue = t :: rest →
      capture_iter st false b c
        = IterOutcome.raised PyExc.transfer_error { st with text_queue := rest })
    ∧ (st.text_queue = [] → c = false → st.key_queue = (m, k) :: krest →
      capture_iter st true false c
        = IterOutcome.raised PyExc.transfer_error { st with key_queue := krest }) := by
  constructor
  · intro h
    unfold capture_iter
    rw [h]
    rfl
  · intro h hc hk
    subst hc
    unfold capture_iter
    rw [h, hk]
    rfl

/-- C5 is false as stated: with one pending text entry and a failing text
send, the iteration outcome is an uncaught exception, not a continuation
of the loop. -/
theorem c5_send_failure_counterexample :
    capture_iter ⟨true, true, 20, ["hello"], []⟩ false true false
      = IterOutcome.raised PyExc.transfer_error ⟨true, true, 20, [], []⟩
    ∧ outcome_continues (capture_iter ⟨true, true, 20, ["hello"], []⟩ false true false) = false := by
  decide

/-- Witness for C5 (amended): a concrete failing text send raises out of
the loop; a concrete failing key send raises out of the loop. -/
theorem c5_send_failure_propagates_witness :
    capture_iter ⟨true, true, 20, [], [(2, 22)]⟩ true false false
      = IterOutcome.raised PyExc.transfer_error
          { (⟨true, true, 20, [], [(2, 22)]⟩ : ClientState) with key_queue := [] } :=
  (c5_send_failure_propagates ⟨true, true, 20, [], [(2, 22)]⟩ true false
    "x" [] 2 22 []).2 rfl rfl rfl

theorem key_char_v_eq : (key_char (PKey.char 'v') == some "v") = true := by decide

theorem key_char_c_ne_v : (key_char (PKey.char 'c') == some "v") = false := by decide

theorem key_char_c_eq : (key_char (PKey.char 'c') == some "c") = true := by decide

/-- C9: for a press of 'v' while a GUI bit is held, `on_press` pushes the
clipboard value onto the text queue exactly when it is present and
non-empty, pushes nothing onto the key queue, and leaves the modifier mask
unchanged; for a press of 'c' while GUI is held, nothing is pushed onto
either queue. -/
theorem c9_cmd_v_cmd_c (m : Nat) (clip : Option String)
    (h : m &&& (MOD_LGUI ||| MOD_RGUI) ≠ 0) :
    ((on_press m (PKey.char 'v') clip).text_push
        = (match clip with
           | some t => if t = "" then none else some t
           | none => none))
    ∧ (on_press m (PKey.char 'v') clip).key_push = none
    ∧ (on_press m (PKey.char 'v') clip).modifiers = m
    ∧ (on_press m (PKey.char 'c') clip).text_push = none
    ∧ (on_press m (PKey.char 'c') clip).key_push = none
    ∧ (on_press m (PKey.char 'c') clip).modifiers = m := by
  have hb : (m &&& (MOD_LGUI ||| MOD_RGUI) != 0) = true := by
    simpa using h
  cases clip with
  | none =>
    simp [on_press, hb, key_char_v_eq, key_char_c_ne_v, key_char_c_eq]
  | some t =>
    by_cases ht : t = "" <;>
      simp [on_press, hb, key_char_v_eq, key_char_c_ne_v, key_char_c_eq, ht]

/-- Witness for C9: left GUI held, clipboard `"hi"`: the press of 'v'
pushes `"hi"` onto the text queue and nothing onto the key queue. -/
theorem c9_cmd_v_cmd_c_witness :
    (on_press MOD_LGUI (PKey.char 'v') (some "hi")).text_push
        = (match (some "hi" : Option String) with
           | some t => if t = "" then none else some t
           | none => none) :=
  (c9_cmd_v_cmd_c MOD_LGUI (some "hi") (by decide)).1

/-- C4 is the documented intent (`capture_mode` docstring: "Other Cmd
shortcuts are mapped to Ctrl"), but the code only applies the GUI-to-Ctrl
remap to the explicitly handled special keys: for a character key pressed
while GUI is held, the line `current_mods = modifiers` of the character
branch resets the snapshot, so the enqueued KeyEvent keeps the GUI bit and
carries no Ctrl bit.  Concretely, with left GUI held (mask `0x08`), Cmd+'a'
is enqueued as `(0x08, 0x04)` — GUI bit 3 still set — while Cmd+Left is
correctly remapped to `(MOD_LCTRL, 0x50)`. -/
theorem c4_gui_remap_divergence :
    (on_press MOD_LGUI (PKey.char 'a') none).key_push = some (MOD_LGUI, 0x04)
    ∧ Nat.testBit MOD_LGUI 3 = true
    ∧ Nat.testBit MOD_LGUI 0 = false
    ∧ (on_press MOD_LGUI PKey.left none).key_push = some (MOD_LCTRL, 0x50) := by
  decide

/-- Press/release bit the code associates with each modifier key: both
`ctrl_l` and `ctrl_r` use `MOD_LCTRL`; every other key (and its generic
pynput alias) uses its own constant. -/
def capture_mod_bit : PKey → Nat
  | PKey.ctrl_l => MOD_LCTRL
  | PKey.ctrl_r => MOD_LCTRL
  | PKey.shift_l => MOD_LSHIFT
  | PKey.shift_g => MOD_LSHIFT
  | PKey.shift_r => MOD_RSHIFT
  | PKey.alt_l => MOD_LALT
  | PKey.alt_g => MOD_LALT
  | PKey.alt_r => MOD_RALT
  | PKey.cmd_l => MOD_LGUI
  | PKey.cmd_g => MOD_LGUI
  | PKey.cmd_r => MOD_RGUI
  | _ => 0

set_option maxRecDepth 100000 in
/-- C7 (amended): for each of the eight left/right modifier keys and every
8-bit mask, a press ORs in exactly one bit — the bit the code maps the key
to, which for right Ctrl is the left-Ctrl bit `0x01` rather than
`MOD_RCTRL` — a matching release clears exactly that same bit, the bit is
set after the press and clear after the release, and every other bit
position is unchanged by both. -/
theorem c7_modifier_press_release (m : Nat) (hm : m < 256) (j : Nat)
    (hj : j < 8) (k : PKey)
    (hk : k ∈ [PKey.ctrl_l, PKey.ctrl_r, PKey.shift_l, PKey.shift_r,
               PKey.alt_l, PKey.alt_r, PKey.cmd_l, PKey.cmd_r])
    (hne : 2 ^ j ≠ capture_mod_bit k) :
    (on_press m k none).modifiers = m ||| capture_mod_bit k
    ∧ on_release m k = py_and_not m (capture_mod_bit k)
    ∧ (on_press m k none).modifiers &&& capture_mod_bit k = capture_mod_bit k
    ∧ on_release m k &&& capture_mod_bit k = 0
    ∧ Nat.testBit (on_press m k none).modifiers j = Nat.testBit m j
    ∧ Nat.testBit (on_release m k) j = Nat.testBit m j := by
  revert m hm j hj k hk hne
  decide

/-- C7 is false as stated: pressing right Ctrl on an empty mask sets the
left-Ctrl bit `0x01`; the key's own bit `MOD_RCTRL = 0x10` (bit 4) stays
clear. -/
theorem c7_right_ctrl_counterexample :
    (on_press 0 PKey.ctrl_r none).modifiers = MOD_LCTRL
    ∧ Nat.testBit (on_press 0 PKey.ctrl_r none).modifiers 4 = false
    ∧ (on_press 0 PKey.ctrl_r none).modifiers &&& MOD_RCTRL = 0 := by
  decide

/-- Witness for C7 (amended): pressing right GUI on mask 5 ORs in its bit. -/
theorem c7_modifier_press_release_witness :
    (on_press 5 PKey.cmd_r none).modifiers = 5 ||| capture_mod_bit PKey.cmd_r :=
  (c7_modifier_press_release 5 (by decide) 0 (by decide) PKey.cmd_r
    (by decide) (by decide)).1

theorem untitled_keep_windows : ∀ d ∈ ("untitled.txt").data, windows_keep d = true := by
  decide

theorem filebin_keep_windows : ∀ d ∈ ("file.bin").data, windows_keep d = true := by
  decide

theorem untitled_keep_linux : ∀ d ∈ ("untitled.txt").data, linux_keep d = true := by
  decide

theorem mem_sanitize_windows (fn default_name : String) (c : Char)
    (hdef : ∀ d ∈ default_name.data, windows_keep d = true)
    (h : c ∈ (sanitize_windows fn default_name).data) : windows_keep c = true := by
  simp only [sanitize_windows] at h
  split at h
  · exact hdef c h
  · exact List.of_mem_filter h

theorem mem_sanitize_linux (fn default_name : String) (c : Char)
    (hdef : ∀ d ∈ default_name.data, linux_keep d = true)
    (h : c ∈ (sanitize_linux fn default_name).data) : linux_keep c = true := by
  simp only [sanitize_linux] at h
  split at h
  · exact hdef c h
  · exact List.of_mem_filter h

theorem sanitize_linux_no_leading_slash (fn default_name : String)
    (hdef : starts_with_slash default_name = false) :
    starts_with_slash (sanitize_linux fn default_name) = false := by
  simp only [sanitize_linux]
  split
  · exact hdef
  · rename_i hcond
    cases hb : starts_with_slash (String.mk (fn.data.filter linux_keep)) with
    | false => rfl
    | true => exact absurd (Or.inr hb) hcond

/-- C6 (amended): the Windows sanitization rule keeps exactly the
characters accepted by `c.isalnum() or c in '.-_'` (the ASCII class
`[A-Za-z0-9.\x2d_]`), the Linux rule additionally keeps `/` but never
returns a name with a leading `/`, an empty filtering result falls back to
the fixed defaults `untitled.txt` (text) / `file.bin` (binary), and no
path separator or space survives the Windows rule; however the dot is
allow-listed, so the input `"../../evil .sh"` yields `"....evil.sh"`
(dots kept, `/` and space dropped), not `"evilsh"`. -/
theorem c6_filename_sanitization (fn : String) (c : Char) :
    (c ∈ (save_file_windows_name fn).data → windows_keep c = true)
    ∧ (c ∈ (save_binary_windows_name fn).data → windows_keep c = true)
    ∧ (c ∈ (save_file_linux_name fn).data → linux_keep c = true)
    ∧ ' ' ∉ (save_file_windows_name fn).data
    ∧ '/' ∉ (save_file_windows_name fn).data
    ∧ '\x5c' ∉ (save_file_windows_name fn).data
    ∧ starts_with_slash (save_file_linux_name fn) = false
    ∧ starts_with_slash (save_binary_linux_name fn) = false
    ∧ (fn.data.filter windows_keep = [] →
        save_file_windows_name fn = "untitled.txt"
          ∧ save_binary_windows_name fn = "file.bin")
    ∧ ((String.mk (fn.data.filter linux_keep) = ""
          ∨ starts_with_slash (String.mk (fn.data.filter linux_keep)) = true) →
        save_file_linux_name fn = "untitled.txt"
          ∧ save_binary_linux_name fn = "file.bin")
    ∧ save_file_windows_name "../../evil .sh" = "....evil.sh" := by
  refine ⟨fun h => mem_sanitize_windows fn "untitled.txt" c untitled_keep_windows h,
    fun h => mem_sanitize_windows fn "file.bin" c filebin_keep_windows h,
    fun h => mem_sanitize_linux fn "untitled.txt" c untitled_keep_linux h,
    fun h => absurd
      (mem_sanitize_windows fn "untitled.txt" ' ' untitled_keep_windows h) (by decide),
    fun h => absurd
      (mem_sanitize_windows fn "untitled.txt" '/' untitled_keep_windows h) (by decide),
    fun h => absurd
      (mem_sanitize_windows fn "untitled.txt" '\x5c' untitled_keep_windows h) (by decide),
    sanitize_linux_no_leading_slash fn "untitled.txt" (by decide),
    sanitize_linux_no_leading_slash fn "file.bin" (by decide),
    ?_, ?_, by decide⟩
  · intro h
    constructor <;>
      simp [save_file_windows_name, save_binary_windows_name, sanitize_windows, h]
  · intro h
    constructor
    · show sanitize_linux fn "untitled.txt" = "untitled.txt"
      simp only [sanitize_linux]
      rw [if_pos h]
    · show sanitize_linux fn "file.bin" = "file.bin"
      simp only [sanitize_linux]
      rw [if_pos h]

/-- Witness for C6 (amended): for the input `"a b/c"`, the character 'a'
survives the Windows rule and indeed lies in the allowed class. -/
theorem c6_filename_sanitization_witness : windows_keep 'a' = true :=
  (c6_filename_sanitization "a b/c" 'a').1 (by decide)

/-- C6 is false as stated: the Windows rule keeps dots, so
`"../../evil .sh"` sanitizes to `"....evil.sh"`, not `"evilsh"`. -/
theorem c6_filename_sanitization_counterexample :
    save_file_windows_name "../../evil .sh" = "....evil.sh"
    ∧ (save_file_windows_name "../../evil .sh" == "evilsh") = false := by
  decide
